import Mathlib

/-
  Verification of the Thunderbolt/USB4 router configuration-space command
  engine (router.c of the thunderbolt driver).  The definitions below are a
  shallow embedding of the C source: per-node command scheduling
  (router_schedule_locked), the blocking/polled/async config read wrappers,
  the response and hotplug dispatchers, topology insert/lookup, node detach,
  resume, and the capability walker.  Machine integers are modelled as Nat
  with explicit masking where overflow matters; fallible code returns
  errno values (0 for success) or Except.
-/

/-! errno values, from FreeBSD sys/errno.h -/

def ENOENT : Nat := 2
def ENOMEM : Nat := 12
def EBUSY : Nat := 16
def EEXIST : Nat := 17
def EINVAL : Nat := 22
def EWOULDBLOCK : Nat := 35
def ETIMEDOUT : Nat := 60

/-! Constants from router.c itself -/

def CFG_DEFAULT_RETRIES : Nat := 3
def CFG_DEFAULT_TIMEOUT : Nat := 2

/-- Modelled from the spec: the packet-type codes (PDF) used by the frame
transport to classify completed frames (read, write, notify, hotplug).  The
numeric values live in nhi_reg.h, which is not part of the sources here;
the claims depend only on the four codes being distinct. -/
def PDF_READ : Nat := 1

/-- Modelled from the spec: packet-type code for write frames. -/
def PDF_WRITE : Nat := 2

/-- Modelled from the spec: packet-type code for notify frames. -/
def PDF_NOTIFY : Nat := 3

/-- Modelled from the spec: packet-type code for hotplug frames. -/
def PDF_HOTPLUG : Nat := 6

/-- Modelled from the spec: the dword-length field packed inside the
address-attributes word of a config read response (spec 4.4 and 6: packed
address attributes hold space, adapter, dword length, offset).  The exact
bit positions live in tbcfg_reg.h, which is not part of the sources here;
a 6-bit field at bit 13 is used, and the claims depend only on the field
being extracted by mask and shift. -/
def TB_CFG_SIZE_SHIFT : Nat := 13

/-- Modelled from the spec: mask companion of TB_CFG_SIZE_SHIFT. -/
def TB_CFG_SIZE_MASK : Nat := 0x3f <<< 13

/-- Modelled from the spec: hotplug event word layout (spec 6: word2 =
packed event code + adapter index + plug/unplug bit).  Adapter index mask
of the hotplug event word; value from tbcfg_reg.h, not in the sources. -/
def TB_CFG_ADPT_MASK : Nat := 0x3f

/-- Modelled from the spec: the unplug flag bit of a hotplug event word. -/
def TB_CFG_UPG_UNPLUG : Nat := 0x80000000

/-- Modelled from the spec: the plug flag value used when acknowledging a
plug (rather than unplug) event. -/
def TB_CFG_PG_PLUG : Nat := 0x40000000

/-- Modelled from the spec: the hotplug-acknowledgment event code carried
in the event-code field of a notify word. -/
def TB_CFG_HP_ACK : Nat := 7

/-- Modelled from the spec: event-code field of a notify word (low byte). -/
def notify_event_code (w : Nat) : Nat := w &&& 0xff

/-- Modelled from the spec: adapter-index field of a notify word (spec 6:
word2 = packed event code + adapter index); a 6-bit field above the event
code byte is used. -/
def notify_adapter (w : Nat) : Nat := (w >>> 8) &&& 0x3f

/-- Modelled from the spec: the recognized error/ack notify event codes of
the dispatcher switch (conn, link, addr, adp, enum, nua, len, hec, fc,
plug, lock errors; hotplug-ack; bandwidth change).  Exact values live in
tbcfg_reg.h, not in the sources; claims depend only on membership and on
the chosen code being non-zero. -/
def TB_CFG_ERR_CONN : Nat := 0

/-- Modelled from the spec: the recognized notify codes, as a list. -/
def notify_handled_codes : List Nat :=
  [TB_CFG_ERR_CONN, 1, 2, 3, 4, 5, 6, TB_CFG_HP_ACK, 8, 9, 10, 11]

/-- Byte swap of a 32-bit word (be32toh / htobe32 on a little-endian host). -/
def bswap32 (x : Nat) : Nat :=
  (x % 256) * 16777216 + (x / 256 % 256) * 65536 +
    (x / 65536 % 256) * 256 + (x / 16777216 % 256)

/-! The command object (struct router_command together with the fields of
its nhi_cmd_frame that the router code uses).  RCMD_POLLED and
RCMD_POLL_COMPLETE are the polled and pollComplete booleans;
CMD_REQ_COMPLETE and CMD_RESP_COMPLETE are reqComplete and respComplete. -/

structure RCmd where
  idx : Nat := 0
  ev : Nat := 0
  dwlen : Nat := 0
  retries : Nat := 0
  timeout : Nat := 0
  polled : Bool := false
  pollComplete : Bool := false
  reqComplete : Bool := false
  respComplete : Bool := false
  respLen : Nat := 0
  respBuffer : List Nat := []
  deriving DecidableEq, Repr

/-- router_prepare_read, lines 835-868: the fields of the command that the
router layer later reads.  resp_len is (dwlen + 3) * 4 and the retry and
timeout budgets are the defaults. -/
def router_prepare_read (dwlen : Nat) (respBuffer : List Nat) : RCmd :=
  { dwlen := dwlen
    retries := CFG_DEFAULT_RETRIES
    timeout := CFG_DEFAULT_TIMEOUT
    respLen := (dwlen + 3) * 4
    respBuffer := respBuffer }

/-- router_prepare_write, lines 870-903: identical budget and length
bookkeeping to router_prepare_read (only the PDF differs on the wire). -/
def router_prepare_write (dwlen : Nat) (respBuffer : List Nat) : RCmd :=
  { dwlen := dwlen
    retries := CFG_DEFAULT_RETRIES
    timeout := CFG_DEFAULT_TIMEOUT
    respLen := (dwlen + 3) * 4
    respBuffer := respBuffer }

/-! The per-node scheduler state: the FIFO command queue and the single
inflight slot of struct router_softc. -/

structure SchedState where
  cmd_queue : List RCmd
  inflight_cmd : Option RCmd
  deriving DecidableEq, Repr

/-- Ghost instrumentation: the sequence of writes to sc.inflight_cmd
performed by an operation, in program order.  assign c is
sc.inflight_cmd = cmd, clear is sc.inflight_cmd = NULL. -/
inductive SlotEvent where
  | assign (c : RCmd)
  | clear
  deriving DecidableEq, Repr

structure SchedResult where
  error : Nat
  state : SchedState
  events : List SlotEvent
  deriving DecidableEq, Repr

/-- The drain loop of router_schedule_locked, lines 928-946: while the
inflight slot is empty and the queue is non-empty, pop the head, occupy
the slot, and submit to the transport (nhi_tx_schedule, modelled by the
submit oracle returning an errno).  On success the loop re-checks its
condition and exits because the slot is now occupied.  On EBUSY the slot
is cleared, the command is re-inserted at the head and the loop stops with
error 0.  On any other error the slot is cleared and the loop stops with
that error. -/
def router_drain_loop (submit : RCmd → Nat) : Option RCmd → List RCmd → SchedResult
  | some c, q => ⟨0, ⟨q, some c⟩, []⟩
  | none, [] => ⟨0, ⟨[], none⟩, []⟩
  | none, c :: rest =>
    let e := submit c
    if e = 0 then
      let r := router_drain_loop submit (some c) rest
      ⟨r.error, r.state, .assign c :: r.events⟩
    else if e = EBUSY then
      ⟨0, ⟨c :: rest, none⟩, [.assign c, .clear]⟩
    else
      ⟨e, ⟨rest, none⟩, [.assign c, .clear]⟩

/-- router_schedule_locked, lines 917-949: append the new command (if any)
to the tail of the FIFO, then drain. -/
def router_schedule_locked (submit : RCmd → Nat) (cmd : Option RCmd)
    (s : SchedState) : SchedResult :=
  let q := match cmd with
    | some c => s.cmd_queue ++ [c]
    | none => s.cmd_queue
  router_drain_loop submit s.inflight_cmd q

structure CbResult where
  buf : List Nat
  cmd : RCmd
  state : SchedState
  events : List SlotEvent
  deriving DecidableEq, Repr

/-- router_get_config_cb, lines 569-594: the completion callback used by
the blocking and polled wrappers.  Copies dwlen words of the response
buffer into the caller buffer only when the command has no asynchronous
event code, clears the inflight slot, wakes the sleeper (or sets the
poll-complete flag when polled), and drains the queue again. -/
def router_get_config_cb (submit : RCmd → Nat) (cmd : RCmd) (buf : List Nat)
    (s : SchedState) : CbResult :=
  let buf' := if cmd.ev = 0 then
      cmd.respBuffer.take cmd.dwlen ++ buf.drop cmd.dwlen
    else buf
  let cmd' := if cmd.polled then { cmd with pollComplete := true } else cmd
  let r := router_schedule_locked submit none ⟨s.cmd_queue, none⟩
  ⟨buf', cmd', r.state, SlotEvent.clear :: r.events⟩

/-- One scheduler or dispatcher operation on a node: a submission
(router_schedule or router_schedule_locked with a new command), a
completion callback (router_get_config_cb, reached from
router_complete_intr, router_response_intr or router_notify_intr), or the
forced slot clear performed by the blocking and polled wrappers when a
command times out (lines 617 and 664). -/
inductive SchedOp where
  | schedule (submit : RCmd → Nat) (cmd : Option RCmd)
  | complete (submit : RCmd → Nat) (cmd : RCmd) (buf : List Nat)
  | timeout_clear

def sched_step (s : SchedState) : SchedOp → SchedState × List SlotEvent
  | .schedule submit cmd =>
    let r := router_schedule_locked submit cmd s
    (r.state, r.events)
  | .complete submit cmd buf =>
    let r := router_get_config_cb submit cmd buf s
    (r.state, r.events)
  | .timeout_clear => (⟨s.cmd_queue, none⟩, [SlotEvent.clear])

def sched_run (s : SchedState) : List SchedOp → SchedState × List SlotEvent
  | [] => (s, [])
  | op :: ops =>
    let r1 := sched_step s op
    let r2 := sched_run r1.1 ops
    (r2.1, r1.2 ++ r2.2)

/-- Replays a sequence of inflight-slot writes starting from a given slot
value; returns none as soon as an assignment hits an already occupied
slot, otherwise the final slot value. -/
def slot_replay : Option RCmd → List SlotEvent → Option (Option RCmd)
  | cur, [] => some cur
  | _, SlotEvent.clear :: rest => slot_replay none rest
  | cur, SlotEvent.assign c :: rest =>
    match cur with
    | none => slot_replay (some c) rest
    | some _ => none

/-! The blocking and polled call wrappers.  What happens while the caller
sleeps (msleep) or busy-waits (DELAY loop) is supplied by an oracle: on a
given attempt either no completion arrives before the budget elapses
(timeout), or the completion callback runs with a given asynchronous event
code attached to the command and the caller is woken (wake). -/

inductive SleepOutcome where
  | timeout
  | wake (ev : Nat)

structure BlockingResult where
  error : Nat
  cmd : RCmd
  buf : List Nat
  state : SchedState
  events : List SlotEvent
  sched_count : Nat
  deriving DecidableEq, Repr

/-- The retry loop of tb_config_read, lines 608-623.  The C loop
while (retries-- >= 0) runs retries + 1 iterations unless it breaks, so it
is modelled by a fuel argument initialised to retries + 1.  Each iteration
appends the command and drains; a scheduling error breaks with that
error.  If msleep times out (EWOULDBLOCK) the inflight slot is forcibly
cleared and the loop continues; any other msleep result breaks (0 when
the completion callback woke the caller, in which case the callback has
already run).  sched_count counts the calls to router_schedule_locked. -/
def tb_config_read_loop (submit : RCmd → Nat) (sleep : Nat → SleepOutcome) :
    Nat → Nat → RCmd → List Nat → SchedState → Nat → BlockingResult
  | 0, i, cmd, buf, s, last => ⟨last, cmd, buf, s, [], i⟩
  | n + 1, i, cmd, buf, s, _ =>
    let r := router_schedule_locked submit (some cmd) s
    if r.error ≠ 0 then
      ⟨r.error, cmd, buf, r.state, r.events, i + 1⟩
    else
      match sleep i with
      | .timeout =>
        let rest := tb_config_read_loop submit sleep n (i + 1) cmd buf
          ⟨r.state.cmd_queue, none⟩ EWOULDBLOCK
        ⟨rest.error, rest.cmd, rest.buf, rest.state,
          r.events ++ SlotEvent.clear :: rest.events, rest.sched_count⟩
      | .wake ev =>
        let cmd' := { cmd with ev := ev }
        let cb := router_get_config_cb submit cmd' buf r.state
        ⟨0, cb.cmd, cb.buf, cb.state, r.events ++ cb.events, i + 1⟩

/-- tb_config_read, lines 596-630: run the retry loop with the default
budget of the prepared command, then force the result to EINVAL when the
command carries a non-zero asynchronous event code. -/
def tb_config_read (submit : RCmd → Nat) (sleep : Nat → SleepOutcome)
    (cmd : RCmd) (buf : List Nat) (s : SchedState) : BlockingResult :=
  let r := tb_config_read_loop submit sleep (cmd.retries + 1) 0 cmd buf s 0
  if r.cmd.ev ≠ 0 then { r with error := EINVAL } else r

/-- tb_config_write, lines 722-753: its retry loop is line for line the
loop of tb_config_read, so the same loop definition is used. -/
def tb_config_write (submit : RCmd → Nat) (sleep : Nat → SleepOutcome)
    (cmd : RCmd) (buf : List Nat) (s : SchedState) : BlockingResult :=
  let r := tb_config_read_loop submit sleep (cmd.retries + 1) 0 cmd buf s 0
  if r.cmd.ev ≠ 0 then { r with error := EINVAL } else r

/-- The inner busy-wait of tb_config_read_polled, lines 654-659, when the
poll-complete flag is never set: DELAY(100 ms) and decrement the
remaining budget (in microseconds) until it is exhausted. -/
def poll_countdown (t : Nat) : Nat :=
  if t > 0 then poll_countdown (t - 100000) else t
  termination_by t
  decreasing_by exact Nat.sub_lt (by omega) (by omega)

/-- The retry loop of tb_config_read_polled, lines 648-669.  The poll
budget t (timeout in microseconds) is initialised once, outside the loop,
and is consumed across retries.  On a timed-out attempt the error is set
to ETIMEDOUT, the inflight slot is forcibly cleared and the loop
continues; when the completion callback runs during the busy-wait it sets
the poll-complete flag and the loop breaks with the scheduling error 0. -/
def tb_config_read_polled_loop (submit : RCmd → Nat)
    (outcome : Nat → SleepOutcome) :
    Nat → Nat → RCmd → List Nat → SchedState → Nat → Nat → BlockingResult
  | 0, i, cmd, buf, s, _, last => ⟨last, cmd, buf, s, [], i⟩
  | n + 1, i, cmd, buf, s, t, _ =>
    let r := router_schedule_locked submit (some cmd) s
    if r.error ≠ 0 then
      ⟨r.error, cmd, buf, r.state, r.events, i + 1⟩
    else
      match outcome i with
      | .timeout =>
        let rest := tb_config_read_polled_loop submit outcome n (i + 1) cmd buf
          ⟨r.state.cmd_queue, none⟩ (poll_countdown t) ETIMEDOUT
        ⟨rest.error, rest.cmd, rest.buf, rest.state,
          r.events ++ SlotEvent.clear :: rest.events, rest.sched_count⟩
      | .wake ev =>
        let cmd' := { cmd with ev := ev }
        let cb := router_get_config_cb submit cmd' buf r.state
        ⟨0, cb.cmd, cb.buf, cb.state, r.events ++ cb.events, i + 1⟩

/-- tb_config_read_polled, lines 632-676: set the RCMD_POLLED flag, run
the polled retry loop with a poll budget of timeout seconds in
microseconds, then force the result to EINVAL when the command carries a
non-zero asynchronous event code. -/
def tb_config_read_polled (submit : RCmd → Nat) (outcome : Nat → SleepOutcome)
    (cmd : RCmd) (buf : List Nat) (s : SchedState) : BlockingResult :=
  let cmd' := { cmd with polled := true }
  let r := tb_config_read_polled_loop submit outcome (cmd'.retries + 1) 0 cmd'
    buf s (cmd'.timeout * 1000000) 0
  if r.cmd.ev ≠ 0 then { r with error := EINVAL } else r

/-- tb_config_read_async, lines 678-692: build the command, schedule it
once (router_schedule) and return the scheduling error immediately.  The
caller-supplied callback, not router_get_config_cb, will be invoked by
the dispatcher on completion; the wrapper applies no retry loop and no
post-completion result rewriting. -/
def tb_config_read_async (submit : RCmd → Nat) (cmd : RCmd)
    (s : SchedState) : Nat × SchedState :=
  let r := router_schedule_locked submit (some cmd) s
  (r.error, r.state)

/-- router_notify_intr, lines 1041-1089: for a recognized error/ack event
code, if the node has an inflight command, attach the event code to it
and invoke its callback with that command; otherwise the event is
dropped.  The value returned is the command passed to its callback, if
any. -/
def router_notify_intr (ev : Nat) (s : SchedState) : Option RCmd :=
  if ev ∈ notify_handled_codes then
    match s.inflight_cmd with
    | some cmd => some { cmd with ev := ev }
    | none => none
  else none

/-! The topology: struct router_softc seen as a tree node.  route is the
64-bit route value TB_ROUTE(sc) = route.lo | route.hi << 32; adapters is
the child array indexed by adapter number (none models a NULL array). -/

inductive RNode where
  | mk (route : Nat) (depth : Nat) (max_adap : Nat)
      (inflight_cmd : Option RCmd) (adapters : Option (List (Option RNode)))

def RNode.route : RNode → Nat
  | .mk r _ _ _ _ => r

def RNode.depth : RNode → Nat
  | .mk _ d _ _ _ => d

def RNode.max_adap : RNode → Nat
  | .mk _ _ m _ _ => m

def RNode.inflight_cmd : RNode → Option RCmd
  | .mk _ _ _ c _ => c

def RNode.adapters : RNode → Option (List (Option RNode))
  | .mk _ _ _ _ a => a

/-- The walk of router_lookup_device, lines 204-264: starting from the
given cursor, compare the cursor route against the search route; on a
mismatch strip the low hop byte from the remainder.  A zero hop byte and
a NULL child both end the chain with ENOENT; a hop above the cursor
maximum adapter index, or a NULL adapter array, fail with EINVAL. -/
def router_lookup_device (cursor : RNode) (search : Nat) (remainder : Nat) :
    Except Nat RNode :=
  if cursor.route = search then .ok cursor
  else
    let hop := remainder % 256
    if h0 : hop = 0 then .error ENOENT
    else if hop > cursor.max_adap then .error EINVAL
    else
      match cursor.adapters with
      | none => .error EINVAL
      | some l =>
        match l.getD hop none with
        | none => .error ENOENT
        | some child => router_lookup_device child search (remainder / 256)
  termination_by remainder
  decreasing_by
    exact Nat.div_lt_self (Nat.pos_of_ne_zero (by
      intro h; exact h0 (by simp [hop, h]))) (by omega)

/-- Entry point of the lookup: both the comparison target and the hop
remainder start as the full route value (line 215). -/
def router_lookup (root : RNode) (route : Nat) : Except Nat RNode :=
  router_lookup_device root route route

/-- Replaces the child at a given adapter index. -/
def RNode.set_adapter : RNode → Nat → RNode → RNode
  | .mk r d m c a, hop, child =>
    .mk r d m c (some ((a.getD []).set hop (some child)))

/-- router_insert, lines 266-313: reject unless the route shifted by
8 * depth fits in one byte and the child depth is exactly parent depth
plus one; the hop byte is the route shifted by 8 * depth (cast to
uint8_t); reject a hop above the parent maximum adapter index; reject an
occupied slot with EEXIST; otherwise store the child.  (The source
indexes parent->adapters without a NULL check; the model reads an empty
array in that case.)  On success the updated parent is returned. -/
def router_insert (sc : RNode) (parent : RNode) : Except Nat RNode :=
  let this_rt := sc.route
  if this_rt >>> (sc.depth * 8) > 0xff ∨ parent.depth + 1 ≠ sc.depth then
    .error EINVAL
  else
    let this_hop := (this_rt >>> (sc.depth * 8)) % 256
    if this_hop > parent.max_adap then .error EINVAL
    else if ((parent.adapters.getD []).getD this_hop none).isSome then
      .error EEXIST
    else .ok (parent.set_adapter this_hop sc)

/-! The response dispatcher. -/

/-- The copy loop of router_response_intr, lines 1028-1029: the final
content of the response buffer after resp_buffer[i] = be32toh(data[i])
for every i below n (writes beyond the buffer length are not
representable and drop, as in List.set). -/
def resp_copy (src : List Nat) : Nat → List Nat → List Nat
  | 0, dst => dst
  | n + 1, dst => (resp_copy src n dst).set n (bswap32 (src.getD n 0))

inductive RespResult where
  | dropped (e : Nat)
  | no_inflight
  | handled (cmd : RCmd) (cb_invoked : Bool)
  deriving DecidableEq, Repr

/-- router_response_intr, lines 972-1039: parse the route from the
payload (big-endian words; the same leading words for read and write
responses), extract the declared dword length from the
address-attributes word, clear the reserved high bit of route.hi, resolve
the node, and find its inflight command.  For a read response copy
min(declared length, resp_len) words into the command response buffer.
Set the response-complete flag and invoke the callback only if the
request-complete flag is already set. -/
def router_response_intr (root : RNode) (eof : Nat) (words : List Nat) :
    RespResult :=
  let hi := bswap32 (words.getD 0 0)
  let lo := bswap32 (words.getD 1 0)
  let attrs := bswap32 (words.getD 2 0)
  let len := (attrs &&& TB_CFG_SIZE_MASK) >>> TB_CFG_SIZE_SHIFT
  let hi' := hi &&& 0x7fffffff
  match router_lookup root (lo + hi' * 4294967296) with
  | .error e => .dropped e
  | .ok dev =>
    match dev.inflight_cmd with
    | none => .no_inflight
    | some cmd =>
      let cmd' := if eof = PDF_READ then
          { cmd with respBuffer :=
              resp_copy (words.drop 3) (min len cmd.respLen) cmd.respBuffer }
        else cmd
      let cmd'' := { cmd' with respComplete := true }
      .handled cmd'' cmd''.reqComplete

/-! The hotplug dispatcher. -/

structure HotplugAckFrame where
  pdf : Nat
  words : List Nat
  deriving DecidableEq, Repr

/-- router_hotplug_ack, lines 1091-1137, after a successful command
allocation: build a notify-framed acknowledgment whose payload is the
event route followed by an event word carrying the hotplug-ack code and
the plug/unplug flag, serialized big-endian with a trailing checksum word
(tb_calc_crc modelled by the crc oracle over the payload words). -/
def router_hotplug_ack (crc : List Nat → Nat) (route_hi route_lo : Nat)
    (unplug : Bool) : HotplugAckFrame :=
  let event_adap := TB_CFG_HP_ACK |||
    (if unplug then TB_CFG_UPG_UNPLUG else TB_CFG_PG_PLUG)
  let payload := [bswap32 route_hi, bswap32 route_lo, bswap32 event_adap]
  { pdf := PDF_NOTIFY, words := payload ++ [bswap32 (crc payload)] }

/-- router_hotplug_intr, lines 1139-1168: parse the route, the adapter
number (TB_CFG_ADPT_MASK) and the unplug flag (TB_CFG_UPG_UNPLUG) from
the event, then acknowledge.  When command allocation fails the failure
is logged and no frame is built; otherwise exactly one acknowledgment
frame is submitted (a submission error is logged, not retried).  The
result is the frame, if any, and the number of submission attempts. -/
def router_hotplug_intr (alloc_ok : Bool) (crc : List Nat → Nat)
    (words : List Nat) : Option HotplugAckFrame × Nat :=
  let hi := bswap32 (words.getD 0 0)
  let lo := bswap32 (words.getD 1 0)
  let attrs := bswap32 (words.getD 2 0)
  let unplug := attrs &&& TB_CFG_UPG_UNPLUG ≠ 0
  if alloc_ok then (some (router_hotplug_ack crc hi lo unplug), 1)
  else (none, 0)

/-- The adapter number a hotplug event carries, as parsed at line 1157. -/
def hotplug_event_adapter (words : List Nat) : Nat :=
  bswap32 (words.getD 2 0) &&& TB_CFG_ADPT_MASK

/-! Node detach and resume. -/

/-- tb_router_detach, lines 448-466: reject with EBUSY when the command
queue is non-empty (the inflight slot is not examined); otherwise free.
The second component counts how many times the node structure itself is
passed to free: the source frees sc when sc->adapters is non-NULL and
then frees sc again unconditionally. -/
def tb_router_detach (cmd_queue : List RCmd) (inflight_cmd : Option RCmd)
    (has_adapters : Bool) : Nat × Nat :=
  match cmd_queue with
  | _ :: _ => (EBUSY, 0)
  | [] =>
    let _ := inflight_cmd
    (0, (if has_adapters then 1 else 0) + 1)

/-- tb_router_resume, lines 553-567: when the suspended flag is set,
return 0 immediately (leaving the flag set); otherwise assign false (the
flag was already false) and return 0. -/
def tb_router_resume (suspended : Bool) : Nat × Bool :=
  if suspended then (0, suspended) else (0, false)

/-! The capability walker. -/

/-- Modelled from the spec: the config space selector for router (as
opposed to adapter) capability walks; value from tbcfg_reg.h, not in the
sources. -/
def TB_CFG_CS_ROUTER : Nat := 1

/-- Modelled from the spec: the vendor-specific capability id; value from
tbcfg_reg.h, not in the sources. -/
def TB_CFG_CAP_VSC : Nat := 5

/-- Modelled from the spec: the fixed maximum capability offset bound;
value from tbcfg_reg.h, not in the sources (a 12-bit offset bound is
used; the claims depend only on the bound being fixed). -/
def TB_CFG_CAP_OFFSET_MAX : Nat := 0xfff

/-- One capability header as read from config space at a given offset,
together with the vendor-specific fields obtained by the wider second
read of the same offset (union tb_cfg_cap). -/
structure CapHeader where
  cap_id : Nat
  next_cap : Nat
  vsc_id : Nat
  vsc_len : Nat
  vsec_next_cap : Nat
  vsec_len : Nat
  deriving DecidableEq, Repr

/-- struct router_cfg_cap: the walk cursor. -/
structure RouterCfgCap where
  space : Nat
  adap : Nat
  cap_id : Nat
  vsc_id : Nat
  next_cap : Nat
  current_cap : Nat
  vsc_len : Nat
  vsec_len : Nat
  deriving DecidableEq, Repr

/-- tb_config_next_cap, lines 1170-1214, with the config reads (which go
through tb_config_read) abstracted by the cfg oracle mapping an offset to
the header stored there: read the header at the current next-offset and
advance the cursor; for router space or a vendor-specific capability also
read the vendor fields, and when the VSC length is zero chain through the
VSEC next pointer instead. -/
def tb_config_next_cap (cfg : Nat → CapHeader) (cap : RouterCfgCap) :
    RouterCfgCap :=
  let current := cap.next_cap
  let hdr := cfg current
  let cap1 := { cap with
    cap_id := hdr.cap_id
    next_cap := hdr.next_cap
    current_cap := current }
  if cap.space ≠ TB_CFG_CS_ROUTER ∧ hdr.cap_id ≠ TB_CFG_CAP_VSC then cap1
  else
    let cap2 := { cap1 with vsc_id := hdr.vsc_id, vsc_len := hdr.vsc_len }
    if hdr.vsc_len = 0 then
      { cap2 with next_cap := hdr.vsec_next_cap, vsec_len := hdr.vsec_len }
    else cap2

/-- The search loop of tb_config_find_cap, lines 1227-1238: while the
cursor does not carry the target capability id and vendor sub-id, fail
with EINVAL as soon as the next offset is zero or above the fixed bound,
otherwise advance with tb_config_next_cap.  The source loop has no other
exit; the fuel argument only truncates the model, and none means the loop
has not terminated within that many iterations. -/
def tb_config_find_cap_loop (cfg : Nat → CapHeader) (tcap tvsc : Nat) :
    Nat → RouterCfgCap → Option (Nat × RouterCfgCap)
  | 0, _ => none
  | fuel + 1, cap =>
    if cap.cap_id = tcap ∧ cap.vsc_id = tvsc then some (0, cap)
    else if cap.next_cap = 0 ∨ cap.next_cap > TB_CFG_CAP_OFFSET_MAX then
      some (EINVAL, cap)
    else tb_config_find_cap_loop cfg tcap tvsc fuel (tb_config_next_cap cfg cap)

/-- tb_config_find_cap, lines 1216-1241: the target ids are taken from
the cursor, the cursor ids are zeroed, and the loop runs. -/
def tb_config_find_cap (cfg : Nat → CapHeader) (fuel : Nat)
    (cap : RouterCfgCap) : Option (Nat × RouterCfgCap) :=
  tb_config_find_cap_loop cfg cap.cap_id cap.vsc_id fuel
    { cap with cap_id := 0, vsc_id := 0 }

/-! Concrete inputs used by witnesses and counterexamples. -/

def cmd0 : RCmd := {}

/-- A child node whose route (0x01) is exactly one hop below the root:
depth 1, last hop byte 0x01 at byte 0 of the route. -/
def child0 : RNode := .mk 1 1 0 none none

/-- A root node: route 0, depth 0, adapter slots 0 and 1 both free. -/
def root0 : RNode := .mk 0 0 1 none (some [none, none])

/-- The root after router_insert placed child0: the child lands in
adapter slot 0 (the hop byte taken at byte index depth = 1 of route
0x01 is 0), not in slot 1. -/
def root0ins : RNode := .mk 0 0 1 none (some [some child0, none])

/-- A read command as built for a one-dword config read, with the
request-side completion flag already signalled by the transport. -/
def cmd6 : RCmd := { router_prepare_read 1 [9, 9, 9, 9] with reqComplete := true }

/-- A root node holding cmd6 inflight. -/
def root6 : RNode := .mk 0 0 1 (some cmd6) (some [none, none])

/-- A received hotplug event: route hi 0, lo 2, adapter 5, plug. -/
def hp_event5 : List Nat := [0, bswap32 2, bswap32 5]

/-- The same hotplug event with adapter 3 instead of 5. -/
def hp_event3 : List Nat := [0, bswap32 2, bswap32 3]

/-- A config space whose only capability header, at offset 1, is a
vendor-specific capability with id 2, sub-id 9, non-zero length, and a
next-offset pointing back at offset 1: a cyclic chain of in-range
offsets. -/
def cyc_cfg : Nat → CapHeader := fun _ =>
  { cap_id := 2, next_cap := 1, vsc_id := 9, vsc_len := 1
    vsec_next_cap := 0, vsec_len := 0 }

/-- A walk cursor searching router space for capability id 3 (sub-id 0),
starting at next-offset 1. -/
def cyc_cap : RouterCfgCap :=
  { space := TB_CFG_CS_ROUTER, adap := 0, cap_id := 3, vsc_id := 0
    next_cap := 1, current_cap := 0, vsc_len := 0, vsec_len := 0 }

/-- The cursor state the walk reaches after one step on cyc_cfg; it is a
fixed point of tb_config_next_cap. -/
def cyc_fixed : RouterCfgCap :=
  { space := TB_CFG_CS_ROUTER, adap := 0, cap_id := 2, vsc_id := 9
    next_cap := 1, current_cap := 1, vsc_len := 1, vsec_len := 0 }

/-- The walk of tb_config_find_cap on the cyclic chain cyc_cfg from
cyc_cap never terminates: no iteration bound suffices. -/
def tb_config_find_cap_diverges : Prop :=
  ∀ fuel, tb_config_find_cap cyc_cfg fuel cyc_cap = none

/-- The inflight-slot write trace of n consecutive timed-out scheduling
attempts of the same command: assign then forced clear, n times. -/
def timeout_trace (cmd : RCmd) : Nat → List SlotEvent
  | 0 => []
  | n + 1 => SlotEvent.assign cmd :: SlotEvent.clear :: timeout_trace cmd n

/-- The dword length a read response declares in its address-attributes
word (the len extracted at line 999). -/
def resp_declared_len (words : List Nat) : Nat :=
  (bswap32 (words.getD 2 0) &&& TB_CFG_SIZE_MASK) >>> TB_CFG_SIZE_SHIFT

/-- A read-response frame for the root route declaring one data dword
with value 77. -/
def words6 : List Nat := [0, 0, bswap32 (1 <<< 13), bswap32 77]

/-! Helper lemmas. -/

theorem slot_replay_append (l1 l2 : List SlotEvent) (cur : Option RCmd) :
    slot_replay cur (l1 ++ l2) =
      (slot_replay cur l1).bind (fun c => slot_replay c l2) := by
  induction l1 generalizing cur with
  | nil => simp [slot_replay]
  | cons e t ih =>
    cases e with
    | clear => simp [slot_replay, ih]
    | assign c =>
      cases cur with
      | none => simp [slot_replay, ih]
      | some d => simp [slot_replay]

theorem router_drain_loop_replay (submit : RCmd → Nat) (q : List RCmd)
    (infl : Option RCmd) :
    slot_replay infl (router_drain_loop submit infl q).events =
      some (router_drain_loop submit infl q).state.inflight_cmd := by
  cases infl with
  | some c => simp [router_drain_loop, slot_replay]
  | none =>
    cases q with
    | nil => simp [router_drain_loop, slot_replay]
    | cons c rest =>
      by_cases h0 : submit c = 0
      · simp [router_drain_loop, h0, slot_replay]
      · by_cases hb : submit c = EBUSY
        · simp [router_drain_loop, h0, hb, slot_replay, EBUSY]
        · simp [router_drain_loop, h0, hb, slot_replay]

theorem sched_step_replay (s : SchedState) (op : SchedOp) :
    slot_replay s.inflight_cmd (sched_step s op).2 =
      some (sched_step s op).1.inflight_cmd := by
  cases op with
  | schedule submit cmd =>
    simp only [sched_step, router_schedule_locked]
    exact router_drain_loop_replay submit _ s.inflight_cmd
  | complete submit cmd buf =>
    simp only [sched_step, router_get_config_cb, router_schedule_locked,
      slot_replay]
    exact router_drain_loop_replay submit s.cmd_queue none
  | timeout_clear => simp [sched_step, slot_replay]

theorem router_drain_loop_error_ne_busy (submit : RCmd → Nat)
    (q : List RCmd) (infl : Option RCmd) :
    (router_drain_loop submit infl q).error ≠ EBUSY := by
  cases infl with
  | some c => simp [router_drain_loop, EBUSY]
  | none =>
    cases q with
    | nil => simp [router_drain_loop, EBUSY]
    | cons c rest =>
      by_cases h0 : submit c = 0
      · simp [router_drain_loop, h0, EBUSY]
      · by_cases hb : submit c = EBUSY
        · simp [router_drain_loop, h0, hb, EBUSY]
        · simpa [router_drain_loop, h0, hb] using hb

theorem tb_config_read_loop_all_timeouts (submit : RCmd → Nat)
    (sleep : Nat → SleepOutcome) (cmd : RCmd) (buf : List Nat)
    (hs : ∀ c, submit c = 0) (ht : ∀ i, sleep i = .timeout) :
    ∀ n i last, tb_config_read_loop submit sleep (n + 1) i cmd buf
        ⟨[], none⟩ last =
      ⟨EWOULDBLOCK, cmd, buf, ⟨[], none⟩, timeout_trace cmd (n + 1),
        i + (n + 1)⟩ := by
  intro n
  induction n with
  | zero =>
    intro i last
    simp [tb_config_read_loop, router_schedule_locked, router_drain_loop,
      hs, ht, timeout_trace]
  | succ n ih =>
    intro i last
    have step := ih (i + 1) EWOULDBLOCK
    rw [show n + 1 + 1 = Nat.succ (n + 1) from rfl, tb_config_read_loop.eq_2]
    simp only [router_schedule_locked, router_drain_loop, hs, ht]
    simp [step, timeout_trace]
    omega

theorem tb_config_read_polled_loop_all_timeouts (submit : RCmd → Nat)
    (outcome : Nat → SleepOutcome) (cmd : RCmd) (buf : List Nat)
    (hs : ∀ c, submit c = 0) (ht : ∀ i, outcome i = .timeout) :
    ∀ n i t last, tb_config_read_polled_loop submit outcome (n + 1) i cmd buf
        ⟨[], none⟩ t last =
      ⟨ETIMEDOUT, cmd, buf, ⟨[], none⟩, timeout_trace cmd (n + 1),
        i + (n + 1)⟩ := by
  intro n
  induction n with
  | zero =>
    intro i t last
    simp [tb_config_read_polled_loop, router_schedule_locked,
      router_drain_loop, hs, ht, timeout_trace]
  | succ n ih =>
    intro i t last
    have step := ih (i + 1) (poll_countdown t) ETIMEDOUT
    rw [show n + 1 + 1 = Nat.succ (n + 1) from rfl,
      tb_config_read_polled_loop.eq_2]
    simp only [router_schedule_locked, router_drain_loop, hs, ht]
    simp [step, timeout_trace]
    omega

theorem resp_copy_length (src : List Nat) (n : Nat) (dst : List Nat) :
    (resp_copy src n dst).length = dst.length := by
  induction n with
  | zero => rfl
  | succ n ih => simp [resp_copy, ih]

theorem list_getD_set_eq (l : List Nat) (i v : Nat) (h : i < l.length) :
    (l.set i v).getD i 0 = v := by
  induction l generalizing i with
  | nil => simp at h
  | cons a t ih =>
    cases i with
    | zero => rfl
    | succ i =>
      simp only [List.set, List.getD, List.get?]
      exact ih i (by simpa using h)

theorem list_getD_set_ne (l : List Nat) (i j v : Nat) (h : i ≠ j) :
    (l.set i v).getD j 0 = l.getD j 0 := by
  induction l generalizing i j with
  | nil => simp [List.set]
  | cons a t ih =>
    cases i with
    | zero =>
      cases j with
      | zero => exact absurd rfl h
      | succ j => rfl
    | succ i =>
      cases j with
      | zero => rfl
      | succ j =>
        simp only [List.set, List.getD, List.get?]
        exact ih i j (by omega)

theorem resp_copy_getD_lt (src : List Nat) (n : Nat) (dst : List Nat)
    (i : Nat) (hi : i < n) (hlen : n ≤ dst.length) :
    (resp_copy src n dst).getD i 0 = bswap32 (src.getD i 0) := by
  induction n with
  | zero => omega
  | succ n ih =>
    by_cases h : i = n
    · subst h
      exact list_getD_set_eq _ _ _ (by rw [resp_copy_length]; omega)
    · simp only [resp_copy]
      rw [list_getD_set_ne _ _ _ _ (by omega)]
      exact ih (by omega) (by omega)

theorem resp_copy_getD_ge (src : List Nat) (n : Nat) (dst : List Nat)
    (i : Nat) (hi : n ≤ i) :
    (resp_copy src n dst).getD i 0 = dst.getD i 0 := by
  induction n with
  | zero => rfl
  | succ n ih =>
    simp only [resp_copy]
    rw [list_getD_set_ne _ _ _ _ (by omega)]
    exact ih (by omega)

theorem list_getD_drop (l : List Nat) (m i : Nat) :
    (l.drop m).getD i 0 = l.getD (m + i) 0 := by
  induction m generalizing l with
  | zero => simp
  | succ m ih =>
    cases l with
    | nil => simp [List.getD]
    | cons a t =>
      simp only [List.drop]
      rw [ih t, show m + 1 + i = (m + i) + 1 from by omega]
      rfl

/-! Claim theorems. -/

/-- C1: for every node and any sequence of scheduler and dispatcher
operations (enqueue and drain, completion callback, timeout clear), at
most one command occupies the inflight slot at any instant: replaying
every write the operations perform on the slot shows that each
assignment happens while the slot is empty (slot_replay never fails) and
that the slot is cleared before another command is submitted, ending at
the final slot value. -/
theorem C1_inflight_slot_exclusive (ops : List SchedOp) (s : SchedState) :
    slot_replay s.inflight_cmd (sched_run s ops).2 =
      some (sched_run s ops).1.inflight_cmd := by
  induction ops generalizing s with
  | nil => simp [sched_run, slot_replay]
  | cons op rest ih =>
    simp only [sched_run]
    rw [slot_replay_append, sched_step_replay]
    simpa using ih (sched_step s op).1

/-- C2: while draining, if transport submission of the head command
fails with EBUSY the scheduler re-inserts it at the head of the FIFO
(the queue is exactly as before, order preserved), clears the inflight
slot, stops, and returns success; any other submission error clears the
slot and is returned; and a drain never surfaces EBUSY to the caller. -/
theorem C2_busy_requeues_head (submit : RCmd → Nat) (c : RCmd)
    (rest : List RCmd) :
    (submit c = EBUSY →
      router_schedule_locked submit none ⟨c :: rest, none⟩ =
        ⟨0, ⟨c :: rest, none⟩, [SlotEvent.assign c, SlotEvent.clear]⟩) ∧
    (submit c ≠ 0 → submit c ≠ EBUSY →
      router_schedule_locked submit none ⟨c :: rest, none⟩ =
        ⟨submit c, ⟨rest, none⟩, [SlotEvent.assign c, SlotEvent.clear]⟩) ∧
    (∀ cmd s, (router_schedule_locked submit cmd s).error ≠ EBUSY) := by
  refine ⟨?_, ?_, ?_⟩
  · intro hb
    simp [router_schedule_locked, router_drain_loop, hb, EBUSY]
  · intro h0 hb
    simp [router_schedule_locked, router_drain_loop, h0, hb]
  · intro cmd s
    exact router_drain_loop_error_ne_busy submit _ s.inflight_cmd

/-- Witness for C2 at a concrete command and oracles. -/
theorem C2_busy_requeues_head_witness :
    router_schedule_locked (fun _ => EBUSY) none ⟨[cmd0], none⟩ =
      ⟨0, ⟨[cmd0], none⟩, [SlotEvent.assign cmd0, SlotEvent.clear]⟩ ∧
    router_schedule_locked (fun _ => ENOMEM) none ⟨[cmd0], none⟩ =
      ⟨ENOMEM, ⟨[], none⟩, [SlotEvent.assign cmd0, SlotEvent.clear]⟩ :=
  ⟨(C2_busy_requeues_head (fun _ => EBUSY) cmd0 []).1 rfl,
   (C2_busy_requeues_head (fun _ => ENOMEM) cmd0 []).2.1
     (by decide) (by decide)⟩

/-- C5: the claim says insert of a child one hop below its parent at a
free in-range adapter slot succeeds and a lookup from the root for the
child route then returns that child.  The code disagrees: router_insert
takes the hop byte at byte index depth of the route while the lookup
consumes hop bytes starting at byte index 0, so the child (route 0x01,
depth 1, one hop below the root at adapter 1) is stored in adapter slot
0 and the subsequent lookup of route 0x01 descends through the empty
slot 1 and fails with ENOENT instead of returning the child. -/
theorem C5_insert_lookup_mismatch :
    router_insert child0 root0 = .ok root0ins ∧
    router_lookup root0ins 1 = .error ENOENT := by
  constructor
  · rfl
  · simp [router_lookup, router_lookup_device, root0ins, child0,
      RNode.route, RNode.max_adap, RNode.adapters, ENOENT]

/-- C8: the claim says detach fails whenever the node has a non-empty
queue or an occupied inflight slot, and otherwise releases the node
exactly once.  The code checks only the queue: with an empty queue but
an occupied inflight slot (and a non-NULL adapter array) it returns 0
and passes the node structure to free twice. -/
theorem C8_detach_ignores_inflight :
    tb_router_detach [] (some cmd0) true = (0, 2) ∧ (0 : Nat) ≠ EBUSY := by
  constructor
  · rfl
  · decide

/-- C10: tb_router_resume always returns 0 and never changes the
suspended flag: when the flag is set it returns immediately without
clearing it, and it assigns false only when the flag is already false,
so resume never takes a node out of the suspended state. -/
theorem C10_resume_never_unsuspends (b : Bool) :
    tb_router_resume b = (0, b) := by
  cases b <;> rfl

/-- C3: for a blocking or polled config read (and the blocking write,
whose loop is identical) whose completions never arrive (every sleep or
poll attempt times out and every transport submission succeeds), the
command is scheduled exactly retries + 1 times (default retries 3,
default timeout 2 seconds, both set by command preparation), the
inflight slot is forcibly cleared after every timeout (the slot trace is
retries + 1 repetitions of assign-then-clear and the final slot is
empty), and the caller observes the timeout error of its wait primitive
(EWOULDBLOCK from msleep for the blocking path, ETIMEDOUT for the polled
path). -/
theorem C3_timeout_retry_budget (submit : RCmd → Nat)
    (sleep poll : Nat → SleepOutcome) (dwlen : Nat) (rb wb buf : List Nat)
    (hs : ∀ c, submit c = 0) (ht : ∀ i, sleep i = .timeout)
    (hp : ∀ i, poll i = .timeout) :
    tb_config_read submit sleep (router_prepare_read dwlen rb) buf
        ⟨[], none⟩ =
      ⟨EWOULDBLOCK, router_prepare_read dwlen rb, buf, ⟨[], none⟩,
        timeout_trace (router_prepare_read dwlen rb)
          (CFG_DEFAULT_RETRIES + 1), CFG_DEFAULT_RETRIES + 1⟩ ∧
    tb_config_read_polled submit poll (router_prepare_read dwlen rb) buf
        ⟨[], none⟩ =
      ⟨ETIMEDOUT, { router_prepare_read dwlen rb with polled := true },
        buf, ⟨[], none⟩,
        timeout_trace { router_prepare_read dwlen rb with polled := true }
          (CFG_DEFAULT_RETRIES + 1), CFG_DEFAULT_RETRIES + 1⟩ ∧
    tb_config_write submit sleep (router_prepare_write dwlen wb) buf
        ⟨[], none⟩ =
      ⟨EWOULDBLOCK, router_prepare_write dwlen wb, buf, ⟨[], none⟩,
        timeout_trace (router_prepare_write dwlen wb)
          (CFG_DEFAULT_RETRIES + 1), CFG_DEFAULT_RETRIES + 1⟩ := by
  refine ⟨?_, ?_, ?_⟩
  · have h1 := tb_config_read_loop_all_timeouts submit sleep
      (router_prepare_read dwlen rb) buf hs ht 3 0 0
    simp only [tb_config_read]
    rw [show (router_prepare_read dwlen rb).retries + 1 = 3 + 1 from rfl, h1]
    simp [router_prepare_read, CFG_DEFAULT_RETRIES]
  · have h2 := tb_config_read_polled_loop_all_timeouts submit poll
      { router_prepare_read dwlen rb with polled := true } buf hs hp 3 0
      ({ router_prepare_read dwlen rb with polled := true }.timeout * 1000000) 0
    simp only [tb_config_read_polled]
    rw [show ({ router_prepare_read dwlen rb with polled := true } :
        RCmd).retries + 1 = 3 + 1 from rfl, h2]
    simp [router_prepare_read, CFG_DEFAULT_RETRIES]
  · have h3 := tb_config_read_loop_all_timeouts submit sleep
      (router_prepare_write dwlen wb) buf hs ht 3 0 0
    simp only [tb_config_write]
    rw [show (router_prepare_write dwlen wb).retries + 1 = 3 + 1 from rfl, h3]
    simp [router_prepare_write, CFG_DEFAULT_RETRIES]

/-- Witness for C3 at concrete oracles that always succeed at submission
and always time out. -/
theorem C3_timeout_retry_budget_witness :
    tb_config_read (fun _ => 0) (fun _ => .timeout)
        (router_prepare_read 1 [7, 8, 9, 10]) [0] ⟨[], none⟩ =
      ⟨EWOULDBLOCK, router_prepare_read 1 [7, 8, 9, 10], [0], ⟨[], none⟩,
        timeout_trace (router_prepare_read 1 [7, 8, 9, 10])
          (CFG_DEFAULT_RETRIES + 1), CFG_DEFAULT_RETRIES + 1⟩ ∧
    tb_config_read_polled (fun _ => 0) (fun _ => .timeout)
        (router_prepare_read 1 [7, 8, 9, 10]) [0] ⟨[], none⟩ =
      ⟨ETIMEDOUT, { router_prepare_read 1 [7, 8, 9, 10] with polled := true },
        [0], ⟨[], none⟩,
        timeout_trace
          { router_prepare_read 1 [7, 8, 9, 10] with polled := true }
          (CFG_DEFAULT_RETRIES + 1), CFG_DEFAULT_RETRIES + 1⟩ ∧
    tb_config_write (fun _ => 0) (fun _ => .timeout)
        (router_prepare_write 1 [7, 8, 9, 10]) [0] ⟨[], none⟩ =
      ⟨EWOULDBLOCK, router_prepare_write 1 [7, 8, 9, 10], [0], ⟨[], none⟩,
        timeout_trace (router_prepare_write 1 [7, 8, 9, 10])
          (CFG_DEFAULT_RETRIES + 1), CFG_DEFAULT_RETRIES + 1⟩ :=
  C3_timeout_retry_budget (fun _ => 0) (fun _ => .timeout) (fun _ => .timeout)
    1 [7, 8, 9, 10] [7, 8, 9, 10] [0]
    (fun _ => rfl) (fun _ => rfl) (fun _ => rfl)

/-- C4 counterexample: the claim says a non-zero asynchronous event code
forces the operation result to a generic Invalid failure in all three
calling modes.  In the asynchronous mode the engine returns only the
immediate scheduling result: tb_config_read_async returns 0 (not EINVAL)
and a later notify completion with the non-zero recognized code 7 hands
the caller callback the command with the raw event code attached —
no EINVAL forcing exists on the asynchronous path. -/
theorem C4_async_not_forced_invalid :
    (tb_config_read_async (fun _ => 0) cmd0 ⟨[], none⟩).1 = 0 ∧
    (tb_config_read_async (fun _ => 0) cmd0 ⟨[], none⟩).1 ≠ EINVAL ∧
    router_notify_intr TB_CFG_HP_ACK
        (tb_config_read_async (fun _ => 0) cmd0 ⟨[], none⟩).2 =
      some { cmd0 with ev := TB_CFG_HP_ACK } ∧
    TB_CFG_HP_ACK ≠ 0 := by
  refine ⟨rfl, by decide, by decide, by decide⟩

/-- C4 amended: when a command completes with a non-zero asynchronous
event code, the blocking and polled modes force the returned result to
EINVAL and the standard completion callback copies no response data into
the caller buffer (the copy happens only when the event code is zero);
the asynchronous mode applies no such forcing — it returns exactly the
immediate scheduling error. -/
theorem C4_event_forces_invalid (submit : RCmd → Nat)
    (sleep poll : Nat → SleepOutcome) (dwlen : Nat) (rb buf : List Nat)
    (e : Nat) (hs : ∀ c, submit c = 0) (he : e ≠ 0) :
    (sleep 0 = .wake e →
      (tb_config_read submit sleep (router_prepare_read dwlen rb) buf
          ⟨[], none⟩).error = EINVAL ∧
      (tb_config_read submit sleep (router_prepare_read dwlen rb) buf
          ⟨[], none⟩).buf = buf) ∧
    (poll 0 = .wake e →
      (tb_config_read_polled submit poll (router_prepare_read dwlen rb) buf
          ⟨[], none⟩).error = EINVAL ∧
      (tb_config_read_polled submit poll (router_prepare_read dwlen rb) buf
          ⟨[], none⟩).buf = buf) ∧
    (∀ cmd s, cmd.ev ≠ 0 →
      (router_get_config_cb submit cmd buf s).buf = buf) ∧
    (∀ cmd s, cmd.ev = 0 →
      (router_get_config_cb submit cmd buf s).buf =
        cmd.respBuffer.take cmd.dwlen ++ buf.drop cmd.dwlen) ∧
    (∀ cmd s, (tb_config_read_async submit cmd s).1 =
      (router_schedule_locked submit (some cmd) s).error) := by
  refine ⟨?_, ?_, ?_, ?_, ?_⟩
  · intro hw
    simp only [tb_config_read]
    rw [show (router_prepare_read dwlen rb).retries + 1 = Nat.succ 3 from rfl,
      tb_config_read_loop.eq_2]
    simp [router_schedule_locked, router_drain_loop, router_get_config_cb,
      hs, hw, router_prepare_read, he]
  · intro hw
    simp only [tb_config_read_polled]
    rw [show ({ router_prepare_read dwlen rb with polled := true } :
        RCmd).retries + 1 = Nat.succ 3 from rfl,
      tb_config_read_polled_loop.eq_2]
    simp [router_schedule_locked, router_drain_loop, router_get_config_cb,
      hs, hw, router_prepare_read, he]
  · intro cmd s hev
    simp [router_get_config_cb, hev]
  · intro cmd s hev
    simp [router_get_config_cb, hev]
  · intro cmd s
    rfl

/-- Witness for C4 amended at concrete oracles. -/
theorem C4_event_forces_invalid_witness :
    ((tb_config_read (fun _ => 0) (fun _ => .wake 7)
        (router_prepare_read 1 [7, 8, 9, 10]) [0] ⟨[], none⟩).error = EINVAL ∧
      (tb_config_read (fun _ => 0) (fun _ => .wake 7)
        (router_prepare_read 1 [7, 8, 9, 10]) [0] ⟨[], none⟩).buf = [0]) ∧
    ((tb_config_read_polled (fun _ => 0) (fun _ => .wake 7)
        (router_prepare_read 1 [7, 8, 9, 10]) [0] ⟨[], none⟩).error = EINVAL ∧
      (tb_config_read_polled (fun _ => 0) (fun _ => .wake 7)
        (router_prepare_read 1 [7, 8, 9, 10]) [0] ⟨[], none⟩).buf = [0]) ∧
    (router_get_config_cb (fun _ => 0) { cmd0 with ev := 7 } [0]
        ⟨[], none⟩).buf = [0] ∧
    (router_get_config_cb (fun _ => 0)
        { cmd0 with dwlen := 1, respBuffer := [55] } [0] ⟨[], none⟩).buf =
      [55] ∧
    (tb_config_read_async (fun _ => 0) cmd0 ⟨[], none⟩).1 =
      (router_schedule_locked (fun _ => 0) (some cmd0) ⟨[], none⟩).error := by
  have h := C4_event_forces_invalid (fun _ => 0) (fun _ => .wake 7)
    (fun _ => .wake 7) 1 [7, 8, 9, 10] [0] 7 (fun _ => rfl) (by decide)
  refine ⟨h.1 rfl, h.2.1 rfl, ?_, ?_, h.2.2.2.2 cmd0 ⟨[], none⟩⟩
  · exact h.2.2.1 { cmd0 with ev := 7 } ⟨[], none⟩ (by decide)
  · simpa using h.2.2.2.1 { cmd0 with dwlen := 1, respBuffer := [55] }
      ⟨[], none⟩ rfl

/-- C6: dispatching a response for a resolved node with an inflight
command copies exactly min(declared response length, requested response
length) response words into the command response buffer for read
responses (words below the minimum take the byteswapped wire data, the
rest of the buffer is untouched), copies nothing for write responses,
sets the response-side completion flag, and invokes the command callback
exactly when the request-side completion flag is also set. -/
theorem C6_response_copy_and_callback (root : RNode) (words : List Nat)
    (dev : RNode) (cmd : RCmd)
    (hlook : router_lookup root
        (bswap32 (words.getD 1 0) +
          (bswap32 (words.getD 0 0) &&& 0x7fffffff) * 4294967296) = .ok dev)
    (hinf : dev.inflight_cmd = some cmd)
    (hlen : min (resp_declared_len words) cmd.respLen ≤
      cmd.respBuffer.length) :
    (router_response_intr root PDF_READ words =
      .handled { cmd with
        respBuffer := resp_copy (words.drop 3)
          (min (resp_declared_len words) cmd.respLen) cmd.respBuffer
        respComplete := true } cmd.reqComplete) ∧
    (∀ i, i < min (resp_declared_len words) cmd.respLen →
      (resp_copy (words.drop 3) (min (resp_declared_len words) cmd.respLen)
        cmd.respBuffer).getD i 0 = bswap32 (words.getD (3 + i) 0)) ∧
    (∀ i, min (resp_declared_len words) cmd.respLen ≤ i →
      (resp_copy (words.drop 3) (min (resp_declared_len words) cmd.respLen)
        cmd.respBuffer).getD i 0 = cmd.respBuffer.getD i 0) ∧
    (router_response_intr root PDF_WRITE words =
      .handled { cmd with respComplete := true } cmd.reqComplete) := by
  refine ⟨?_, ?_, ?_, ?_⟩
  · simp only [router_response_intr]
    rw [hlook]
    simp [hinf, resp_declared_len, PDF_READ]
  · intro i hi
    rw [resp_copy_getD_lt _ _ _ _ hi hlen, list_getD_drop]
  · intro i hi
    exact resp_copy_getD_ge _ _ _ _ hi
  · simp only [router_response_intr]
    rw [hlook]
    simp [hinf, resp_declared_len, PDF_WRITE, PDF_READ]

/-- Witness for C6: a one-dword read response for the root route (which
the lookup resolves to the root itself) against an inflight command
requesting one dword with a four-word response buffer. -/
theorem C6_response_copy_and_callback_witness :
    (router_response_intr root6 PDF_READ words6 =
      .handled { cmd6 with
        respBuffer := [77, 9, 9, 9]
        respComplete := true } true) ∧
    ((resp_copy (words6.drop 3) (min (resp_declared_len words6) cmd6.respLen)
      cmd6.respBuffer).getD 0 0 = bswap32 (words6.getD 3 0)) ∧
    ((resp_copy (words6.drop 3) (min (resp_declared_len words6) cmd6.respLen)
      cmd6.respBuffer).getD 2 0 = cmd6.respBuffer.getD 2 0) ∧
    (router_response_intr root6 PDF_WRITE words6 =
      .handled { cmd6 with respComplete := true } true) := by
  have h := C6_response_copy_and_callback root6 words6 root6 cmd6
    (by simp [router_lookup, router_lookup_device, root6, words6, RNode.route,
      bswap32])
    rfl (by decide)
  refine ⟨?_, ?_, ?_, ?_⟩
  · have h1 := h.1
    rw [h1]
    norm_num [cmd6, router_prepare_read, words6, resp_declared_len,
      resp_copy, bswap32, TB_CFG_SIZE_MASK, TB_CFG_SIZE_SHIFT]
  · exact h.2.1 0 (by decide)
  · exact h.2.2.1 2 (by decide)
  · have h4 := h.2.2.2
    rw [h4]
    norm_num [cmd6, router_prepare_read]

/-- C7: the claim says each hotplug event is acknowledged by exactly one
notify-framed frame carrying the same route, the same adapter number and
the same plug/unplug flag.  The code builds the event word of the
acknowledgment as the hotplug-ack code or-ed with only the plug/unplug
flag — no adapter bits: for an event on adapter 5 (plug, route hi 0 and
lo 2) exactly one ack is submitted, its route and plug/unplug flag match
the event, but its adapter field is 0, not 5, and the ack built for the
same event on adapter 3 is identical, so the ack cannot carry the
adapter of the received event.  Allocation failure produces no frame. -/
theorem C7_ack_lacks_adapter :
    hotplug_event_adapter hp_event5 = 5 ∧
    router_hotplug_intr true (fun _ => 0) hp_event5 =
      (some ⟨PDF_NOTIFY,
        [0, bswap32 2, bswap32 (TB_CFG_HP_ACK ||| TB_CFG_PG_PLUG), 0]⟩, 1) ∧
    notify_event_code (TB_CFG_HP_ACK ||| TB_CFG_PG_PLUG) = TB_CFG_HP_ACK ∧
    notify_adapter (TB_CFG_HP_ACK ||| TB_CFG_PG_PLUG) = 0 ∧
    (TB_CFG_HP_ACK ||| TB_CFG_PG_PLUG) &&& TB_CFG_UPG_UNPLUG = 0 ∧
    (router_hotplug_intr true (fun _ => 0) hp_event5).1 =
      (router_hotplug_intr true (fun _ => 0) hp_event3).1 ∧
    router_hotplug_intr false (fun _ => 0) hp_event5 = (none, 0) := by
  refine ⟨by decide, by decide, by decide, by decide, by decide, by decide,
    by decide⟩

/-- C9 counterexample: the claim says the capability walk terminates for
every starting offset and target, with a bounded number of header reads
even on a corrupt or cyclic chain.  On the cyclic chain cyc_cfg (offset 1
points back to offset 1, in range, capability id never matching target
id 3) the loop state reaches the fixed point cyc_fixed and the walk never
returns: no iteration bound suffices. -/
theorem C9_cyclic_chain_diverges : tb_config_find_cap_diverges := by
  have hfix : tb_config_next_cap cyc_cfg cyc_fixed = cyc_fixed := by decide
  have hstart : tb_config_next_cap cyc_cfg
      { cyc_cap with cap_id := 0, vsc_id := 0 } = cyc_fixed := by decide
  have hloop : ∀ n, tb_config_find_cap_loop cyc_cfg 3 0 n cyc_fixed = none := by
    intro n
    induction n with
    | zero => rfl
    | succ n ih =>
      rw [show n + 1 = Nat.succ n from rfl, tb_config_find_cap_loop.eq_2,
        if_neg (by decide), if_neg (by decide), hfix]
      exact ih
  intro fuel
  cases fuel with
  | zero => rfl
  | succ n =>
    show tb_config_find_cap_loop cyc_cfg 3 0 (n + 1)
      { cyc_cap with cap_id := 0, vsc_id := 0 } = none
    rw [show n + 1 = Nat.succ n from rfl, tb_config_find_cap_loop.eq_2,
      if_neg (by decide), if_neg (by decide), hstart]
    exact hloop n

/-- C9 amended: the walk rejects a zero or out-of-bound next-capability
offset as soon as it is reached, returning EINVAL with no further header
read and regardless of the remaining iteration budget; termination is
guaranteed only through this guard — a cyclic chain of in-range offsets
(see the counterexample) never terminates. -/
theorem C9_guard_rejects_immediately (cfg : Nat → CapHeader)
    (cap : RouterCfgCap) (fuel : Nat)
    (hne : ¬(cap.cap_id = 0 ∧ cap.vsc_id = 0))
    (hnext : cap.next_cap = 0 ∨ cap.next_cap > TB_CFG_CAP_OFFSET_MAX) :
    tb_config_find_cap cfg (fuel + 1) cap =
      some (EINVAL, { cap with cap_id := 0, vsc_id := 0 }) := by
  unfold tb_config_find_cap
  rw [show fuel + 1 = Nat.succ fuel from rfl, tb_config_find_cap_loop.eq_2,
    if_neg (by simpa [eq_comm] using hne), if_pos (by simpa using hnext)]

/-- Witness for C9 amended: a cursor whose next offset 0x2000 exceeds the
bound is rejected at once. -/
theorem C9_guard_rejects_immediately_witness :
    tb_config_find_cap cyc_cfg 1 { cyc_cap with next_cap := 0x2000 } =
      some (EINVAL,
        { cyc_cap with cap_id := 0, vsc_id := 0, next_cap := 0x2000 }) := by
  have h := C9_guard_rejects_immediately cyc_cfg
    { cyc_cap with next_cap := 0x2000 } 0 (by decide) (by decide)
  simpa using h
